import Mathlib

/-!
Verification of `robot_framework/process.py` (journalisation robot for the
"enlig forsørger" project).

The Python module coordinates three external services: a mail gateway
(Microsoft Graph), a case backend (KMD Nova) and an orchestration/queue
service (OpenOrchestrator).  We embed the module shallowly:

* `Email` mirrors the fields of the gateway's email object that the code
  reads (`sender`, `subject`, `received_time`, and the plain-text body
  returned by `get_text()`).
* The external services are modelled by a `Backend` record of oracles: for
  every backend call the oracle yields either a result (`Except.ok`) or the
  message of the exception the call raises (`Except.error`).  A call that
  raises has no effect.
* Each function returns the list of side effects it performed (`Event`s, in
  order) together with its result; a raised Python exception is an
  `Except.error` value, which the embedded `handle_email` catches and
  re-raises exactly as the `try`/`except` in the source does.
* `datetime` values are modelled by their ISO strings: the code only ever
  parses `email.received_time` with `fromisoformat` and hands the result
  on, so a valid timestamp round-trips unchanged.
* `re.findall(r"CPR-nummer(.+?)Adresse", text)[0]` is modelled by a
  character-list matcher with Python's semantics: the scan tries successive
  start positions left to right, `.` matches any character except a
  newline, and the lazy `(.+?)` takes the shortest non-empty capture that
  lets the literal `Adresse` match.  `[0]` on an empty result list raises
  `IndexError`, modelled as `Option.none`.
-/

/-- An email as seen by the code: `sender`, `subject`, `received_time` and
the plain-text body returned by `email.get_text()`. -/
structure Email where
  sender : String
  subject : String
  received_time : String
  body : String
deriving DecidableEq, Repr

/-! ### The regular expression `CPR-nummer(.+?)Adresse` -/

/-- The left literal marker of the pattern. -/
def cprMarker : List Char := "CPR-nummer".toList

/-- The right literal marker of the pattern. -/
def adresseMarker : List Char := "Adresse".toList

/-- The lazy group `(.+?)` followed by the literal `Adresse`: consume at
least one character, none of which may be a newline (Python `.` without
`re.DOTALL`), stopping at the first point where `Adresse` matches. -/
def lazyCapture : List Char → Option (List Char)
  | [] => none
  | c :: rest =>
    if c = '\n' then none
    else if adresseMarker.isPrefixOf rest then some [c]
    else (lazyCapture rest).map (fun cap => c :: cap)

/-- Try to match the whole pattern at the current position, returning the
group capture. -/
def matchAt (l : List Char) : Option (List Char) :=
  if cprMarker.isPrefixOf l then lazyCapture (l.drop cprMarker.length) else none

/-- The capture of the first match of the pattern in the text, scanning
start positions left to right as `re.findall` does. -/
def findFirstCapture : List Char → Option (List Char)
  | [] => none
  | c :: rest =>
    match matchAt (c :: rest) with
    | some cap => some cap
    | none => findFirstCapture rest

/-- The function `get_cpr_from_email`: `re.findall(r"CPR-nummer(.+?)Adresse", text)[0]`.
`none` models the `IndexError` raised by `[0]` when there is no match. -/
def get_cpr_from_email (email : Email) : Option String :=
  (findFirstCapture email.body.toList).map (fun cap => String.mk cap)

/-! ### Filtering the mailbox: `get_emails` -/

/-- The function `get_emails`, applied to the list the gateway returns for the folder
`Indbakke/Enlig forsørgerprojekt/Kvitteringer til journalisering` of the
mailbox `kontrolteamet@mkb.aarhus.dk`: keep exactly the emails whose sender
and subject equal the two hard-coded strings. -/
def get_emails (mails : List Email) : List Email :=
  mails.filter
    (fun mail => mail.sender == "noreply@aarhus.dk" &&
      mail.subject == "Erklæring - økonomisk fripladstilskud")

/-! ### The KMD Nova data model (`nova_objects`) -/

/-- A `CaseParty` as constructed in `create_case`. -/
structure CaseParty where
  role : String
  identification_type : String
  identification : String
  name : String
  uuid : Option String
deriving DecidableEq, Repr

/-- A `Department` as constructed in `create_case`. -/
structure Department where
  id : Nat
  name : String
  user_key : String
deriving DecidableEq, Repr

/-- A `Caseworker` as constructed in `create_case`. -/
structure Caseworker where
  uuid : String
  name : String
  ident : String
deriving DecidableEq, Repr

/-- A `NovaCase` with the fields `create_case` fills in.  `case_date` is the
ISO string of the datetime. -/
structure NovaCase where
  uuid : String
  title : String
  case_date : String
  progress_state : String
  case_parties : List CaseParty
  kle_number : String
  proceeding_facet : String
  sensitivity : String
  responsible_department : Department
  security_unit : Department
  caseworker : Caseworker
deriving DecidableEq, Repr

/-- A Nova `Document` with the fields `attach_email_to_case` fills in.
`document_date` is the ISO string of the email's received time. -/
structure Document where
  uuid : String
  title : String
  sensitivity : String
  document_type : String
  document_date : String
  approved : Bool
  description : String
deriving DecidableEq, Repr

/-- The statuses of the OpenOrchestrator `QueueStatus` enum; the code uses
only `DONE` and `FAILED`. -/
inductive QueueStatus where
  | new
  | in_progress
  | done
  | failed
  | abandoned
deriving DecidableEq, Repr

/-! ### Side effects -/

/-- One backend call successfully performed by the code, in the order the
calls appear in a run.  A call that raises performs no effect and produces
no event.  `getCases` is the case-backend lookup `nova_cases.get_cases`
that the library offers but `process.py` never calls; it is included so
that "no lookup for an existing case happens" is expressible. -/
inductive Event where
  | createQueueElement (queueName : String) (reference : String) (elemId : Nat)
  | setQueueElementStatus (elemId : Nat) (status : QueueStatus) (message : Option String)
  | getAddressByCpr (cpr : String)
  | getCases (cpr : String)
  | addCase (case : NovaCase)
  | getEmailAsMime (email : Email)
  | uploadDocument (fileName : String)
  | attachDocumentToCase (caseUuid : String) (doc : Document)
  | moveEmail (email : Email) (folder : String)
deriving DecidableEq, Repr

/-- A Python exception as it reaches the caller of `handle_email`: either
the `IndexError` from `get_cpr_from_email`, or an exception raised by a
backend call inside the `try` block, carrying its `str(exc)` message. -/
inductive PyError where
  | indexError
  | exception (msg : String)
deriving DecidableEq, Repr

/-- Oracles for the three external services.  Every fallible call yields
either its return value or the message of the exception it raises.
`newQueueId` gives the id of the queue element the orchestrator creates for
a reference; `genUuid` is the value of `uuid.uuid4()`; `nowYear` is
`datetime.now().year`. -/
structure Backend where
  cprName : String → Except String String
  addCaseResult : NovaCase → Except String Unit
  mimeResult : Email → Except String String
  uploadResult : String → String → Except String String
  attachResult : String → Document → Except String Unit
  moveResult : Email → String → Except String Unit
  newQueueId : String → Nat
  genUuid : String
  nowYear : Nat

/-! ### Constants of the code -/

/-- Modelled from the spec: the orchestration queue name comes from the
`robot_framework.config` module, which is not part of the repository
snapshot; its concrete value plays no role in any claim. -/
def QUEUE_NAME : String := "Journalisering af projekt enlig forsoerger"

/-- The archive folder emails are moved to after journalisation. -/
def JOURNALIZED_FOLDER : String :=
  "Indbakke/Enlig forsørgerprojekt/Journaliserede kvitteringer"

/-- The fixed department used both as responsible department and security
unit. -/
def kontrolteamet : Department :=
  ⟨70363, "Kontrolteamet", "4BKONTROL"⟩

/-- The fixed caseworker identity. -/
def rpaCaseworker : Caseworker :=
  ⟨"3eb31cbb-d6dc-4b01-9eec-0b415f5b89cb",
   "Rpabruger Rpa15 - MÅ IKKE SLETTES RITM0055928", "AZRPA15"⟩

/-! ### The workflow functions -/

/-- The `NovaCase` value `create_case` builds before persisting it. -/
def builtCase (cpr case_date name : String) (B : Backend) : NovaCase :=
  { uuid := B.genUuid
    title := "Projekt enlig forsørger " ++ toString B.nowYear
    case_date := case_date
    progress_state := "Afsluttet"
    case_parties := [⟨"Primær", "CprNummer", cpr, name, none⟩]
    kle_number := "32.45.04"
    proceeding_facet := "G01"
    sensitivity := "Fortrolige"
    responsible_department := kontrolteamet
    security_unit := kontrolteamet
    caseworker := rpaCaseworker }

/-- The function `create_case`: look the person's name up by cpr, build the case and
persist it with `nova_cases.add_case`, returning it.  Despite its
docstring, the function never looks for an existing case. -/
def create_case (cpr case_date : String) (B : Backend) :
    List Event × Except String NovaCase :=
  match B.cprName cpr with
  | .error msg => ([], .error msg)
  | .ok name =>
    let case := builtCase cpr case_date name B
    match B.addCaseResult case with
    | .error msg => ([.getAddressByCpr cpr], .error msg)
    | .ok _ => ([.getAddressByCpr cpr, .addCase case], .ok case)

/-- The `Document` value `attach_email_to_case` builds around an uploaded
document id. -/
def builtDocument (doc_uuid : String) (email : Email) : Document :=
  { uuid := doc_uuid
    title := "Email kvittering"
    sensitivity := "Fortrolige"
    document_type := "Indgående"
    document_date := email.received_time
    approved := true
    description := "Automatisk journaliseret af robot." }

/-- The function `attach_email_to_case`: fetch the email as MIME, upload it under the
fixed file name, and attach the resulting document to the case. -/
def attach_email_to_case (email : Email) (case : NovaCase) (B : Backend) :
    List Event × Except String Unit :=
  match B.mimeResult email with
  | .error msg => ([], .error msg)
  | .ok mime =>
    match B.uploadResult mime "Email kvittering.eml" with
    | .error msg => ([.getEmailAsMime email], .error msg)
    | .ok doc_uuid =>
      let doc := builtDocument doc_uuid email
      match B.attachResult case.uuid doc with
      | .error msg =>
        ([.getEmailAsMime email, .uploadDocument "Email kvittering.eml"], .error msg)
      | .ok _ =>
        ([.getEmailAsMime email, .uploadDocument "Email kvittering.eml",
          .attachDocumentToCase case.uuid doc], .ok ())

/-- The function `handle_email`: extract the cpr, create a queue element whose reference
is `f"{cpr} - {email.received_time}"`, then in a `try` block create the
case, attach the email and move it; on an exception mark the element
`FAILED` with `str(exc)` and re-raise, otherwise mark it `DONE`. -/
def handle_email (email : Email) (B : Backend) :
    List Event × Except PyError Unit :=
  match get_cpr_from_email email with
  | none => ([], .error .indexError)
  | some cpr =>
    let reference := cpr ++ " - " ++ email.received_time
    let qid := B.newQueueId reference
    let ev0 : List Event := [.createQueueElement QUEUE_NAME reference qid]
    match create_case cpr email.received_time B with
    | (evs, .error msg) =>
      (ev0 ++ evs ++ [.setQueueElementStatus qid .failed (some msg)],
       .error (.exception msg))
    | (evs, .ok case) =>
      match attach_email_to_case email case B with
      | (evs2, .error msg) =>
        (ev0 ++ evs ++ evs2 ++ [.setQueueElementStatus qid .failed (some msg)],
         .error (.exception msg))
      | (evs2, .ok _) =>
        match B.moveResult email JOURNALIZED_FOLDER with
        | .error msg =>
          (ev0 ++ evs ++ evs2 ++ [.setQueueElementStatus qid .failed (some msg)],
           .error (.exception msg))
        | .ok _ =>
          (ev0 ++ evs ++ evs2 ++
            [.moveEmail email JOURNALIZED_FOLDER,
             .setQueueElementStatus qid .done none], .ok ())

/-- The batch loop of `process`: handle each email in turn; an exception
from `handle_email` is not caught, so it aborts the loop. -/
def process_emails : List Email → Backend → List Event × Except PyError Unit
  | [], _ => ([], .ok ())
  | email :: rest, B =>
    match handle_email email B with
    | (tr, .error err) => (tr, .error err)
    | (tr, .ok _) =>
      let (tr2, r2) := process_emails rest B
      (tr ++ tr2, r2)

/-- The function `process` after authentication: fetch and filter the mailbox, then run
the batch loop over the selected emails.  (Credential fetching and logging
are pure I/O against the orchestrator and are not modelled.) -/
def process (inbox : List Email) (B : Backend) :
    List Event × Except PyError Unit :=
  process_emails (get_emails inbox) B

/-! ### Classifying events -/

/-- Is this event the creation of a queue element? -/
def isCreateQueueElement : Event → Bool
  | .createQueueElement _ _ _ => true
  | _ => false

/-- Is this event a queue-element status update? -/
def isSetStatus : Event → Bool
  | .setQueueElementStatus _ _ _ => true
  | _ => false

/-- Is this event a queue-element status update to `DONE`? -/
def isSetDone : Event → Bool
  | .setQueueElementStatus _ .done _ => true
  | _ => false

/-- Is this event a queue-element status update to `FAILED`? -/
def isSetFailed : Event → Bool
  | .setQueueElementStatus _ .failed _ => true
  | _ => false

/-- Is this event a lookup of existing cases (`nova_cases.get_cases`)? -/
def isGetCases : Event → Bool
  | .getCases _ => true
  | _ => false

/-- Is this event the persisting of a case (`nova_cases.add_case`)? -/
def isAddCase : Event → Bool
  | .addCase _ => true
  | _ => false

/-- Is this event a document upload? -/
def isUploadDocument : Event → Bool
  | .uploadDocument _ => true
  | _ => false

/-- Is this event the attachment of a document to a case? -/
def isAttachDocument : Event → Bool
  | .attachDocumentToCase _ _ => true
  | _ => false

/-- Is this event the move of an email to another folder? -/
def isMoveEmail : Event → Bool
  | .moveEmail _ _ => true
  | _ => false

/-- The four externally visible side-effecting steps of per-email
handling, in the order the code performs them. -/
inductive StepKind where
  | caseCreated
  | documentUploaded
  | documentAttached
  | emailMoved
deriving DecidableEq, Repr

/-- The step an event realises, if any. -/
def stepOf : Event → Option StepKind
  | .addCase _ => some .caseCreated
  | .uploadDocument _ => some .documentUploaded
  | .attachDocumentToCase _ _ => some .documentAttached
  | .moveEmail _ _ => some .emailMoved
  | _ => none

/-- The sequence of side-effecting steps realised by a trace. -/
def stepsOf (tr : List Event) : List StepKind :=
  tr.filterMap stepOf

/-- The reference string of the queue element created for an email:
`f"{cpr} - {email.received_time}"`. -/
def queueRef (email : Email) (cpr : String) : String :=
  cpr ++ " - " ++ email.received_time

/-- The trace of a fully successful run of `handle_email` for an email
whose cpr is `cpr`, whose person lookup returned `name` and whose document
upload returned `doc_uuid`. -/
def successTrace (email : Email) (B : Backend) (cpr name doc_uuid : String) :
    List Event :=
  [.createQueueElement QUEUE_NAME (queueRef email cpr)
     (B.newQueueId (queueRef email cpr)),
   .getAddressByCpr cpr,
   .addCase (builtCase cpr email.received_time name B),
   .getEmailAsMime email,
   .uploadDocument "Email kvittering.eml",
   .attachDocumentToCase (builtCase cpr email.received_time name B).uuid
     (builtDocument doc_uuid email),
   .moveEmail email JOURNALIZED_FOLDER,
   .setQueueElementStatus (B.newQueueId (queueRef email cpr)) .done none]

/-- The text decomposes as `A ++ "CPR-nummer" ++ X ++ "Adresse" ++ B` with
a non-empty, newline-free `X`: exactly the texts on which the pattern
`CPR-nummer(.+?)Adresse` has a match. -/
def hasCprMatch (l : List Char) : Prop :=
  ∃ A X B, l = A ++ (cprMarker ++ (X ++ (adresseMarker ++ B))) ∧
    X ≠ [] ∧ ∀ c ∈ X, c ≠ '\n'

/-! ### Concrete sample data -/

/-- A well-formed receipt email. -/
def sampleEmail : Email :=
  ⟨"noreply@aarhus.dk", "Erklæring - økonomisk fripladstilskud",
   "2024-05-01T10:00:00", "Kære borger CPR-nummer1234567890Adresse Hovedgaden 1"⟩

/-- An email whose body has no occurrence of the pattern. -/
def noMatchEmail : Email :=
  ⟨"noreply@aarhus.dk", "Erklæring - økonomisk fripladstilskud",
   "2024-05-01T10:00:00", "hello"⟩

/-- A backend on which every call succeeds. -/
def trivialBackend : Backend :=
  ⟨fun _ => .ok "Navn Navnesen", fun _ => .ok (), fun _ => .ok "mime-indhold",
   fun _ _ => .ok "doc-uuid-1", fun _ _ => .ok (), fun _ _ => .ok (),
   fun _ => 1, "case-uuid-1", 2024⟩

/-- A backend on which persisting the case raises an exception whose
`str(exc)` is the empty string (as for a bare `raise Exception()`). -/
def emptyMsgBackend : Backend :=
  ⟨fun _ => .ok "Navn Navnesen", fun _ => .error "", fun _ => .ok "mime-indhold",
   fun _ _ => .ok "doc-uuid-1", fun _ _ => .ok (), fun _ _ => .ok (),
   fun _ => 1, "case-uuid-1", 2024⟩

/-- First email of the three-email batch scenario. -/
def batchEmail1 : Email :=
  ⟨"noreply@aarhus.dk", "Erklæring - økonomisk fripladstilskud",
   "2024-01-01T00:00:00", "CPR-nummer1111111111Adresse A-gade 1"⟩

/-- Second email of the three-email batch scenario; its document
attachment will fail. -/
def batchEmail2 : Email :=
  ⟨"noreply@aarhus.dk", "Erklæring - økonomisk fripladstilskud",
   "2024-01-02T00:00:00", "CPR-nummer2222222222Adresse B-gade 2"⟩

/-- Third email of the three-email batch scenario. -/
def batchEmail3 : Email :=
  ⟨"noreply@aarhus.dk", "Erklæring - økonomisk fripladstilskud",
   "2024-01-03T00:00:00", "CPR-nummer3333333333Adresse C-gade 3"⟩

/-- A backend on which attaching a document whose date is the second batch
email's received time raises, and every other call succeeds. -/
def batchBackend : Backend :=
  ⟨fun _ => .ok "Navn Navnesen", fun _ => .ok (), fun _ => .ok "mime-indhold",
   fun _ _ => .ok "doc-uuid-1",
   fun _ doc => if doc.document_date == "2024-01-02T00:00:00"
     then .error "Attach fejl" else .ok (),
   fun _ _ => .ok (), fun _ => 1, "case-uuid-1", 2024⟩

/-! ### Lemmas about the pattern matcher -/

/-- The lazy group captures at least one character. -/
theorem lazyCapture_ne_nil (l cap : List Char) (h : lazyCapture l = some cap) :
    cap ≠ [] := by
  cases l with
  | nil => simp [lazyCapture] at h
  | cons c rest =>
    simp only [lazyCapture] at h
    split at h
    · exact absurd h (by simp)
    · split at h
      · cases h; simp
      · rcases Option.map_eq_some'.mp h with ⟨cap', _, hc⟩
        rw [← hc]; simp

/-- Soundness of the lazy group: a capture decomposes the input as
`capture ++ "Adresse" ++ rest`, the capture being non-empty and free of
newlines. -/
theorem lazyCapture_sound (l cap : List Char) (h : lazyCapture l = some cap) :
    ∃ B, l = cap ++ (adresseMarker ++ B) ∧ cap ≠ [] ∧ ∀ c ∈ cap, c ≠ '\n' := by
  induction l generalizing cap with
  | nil => simp [lazyCapture] at h
  | cons c rest ih =>
    simp only [lazyCapture] at h
    split at h
    · exact absurd h (by simp)
    · rename_i hnl
      split at h
      · rename_i hpre
        cases h
        rcases List.isPrefixOf_iff_prefix.mp hpre with ⟨B, hB⟩
        exact ⟨B, by simp [← hB], by simp, by simpa using hnl⟩
      · rcases Option.map_eq_some'.mp h with ⟨cap', hrest, hc⟩
        rcases ih cap' hrest with ⟨B, hB, hne, hfree⟩
        refine ⟨B, by simp [← hc, hB], by simp [← hc], ?_⟩
        intro x hx
        rw [← hc] at hx
        rcases List.mem_cons.mp hx with h1 | h2
        · exact h1 ▸ hnl
        · exact hfree x h2

/-- Completeness of the lazy group: on `X ++ "Adresse" ++ B` with `X`
non-empty, newline-free, and such that `"Adresse"` matches at no proper
position inside `X`, the capture is exactly `X`. -/
theorem lazyCapture_complete (X B : List Char) (hne : X ≠ [])
    (hnl : ∀ c ∈ X, c ≠ '\n')
    (hmin : ∀ i, i < X.length → 0 < i →
      ¬ adresseMarker.isPrefixOf (X.drop i ++ (adresseMarker ++ B))) :
    lazyCapture (X ++ (adresseMarker ++ B)) = some X := by
  induction X with
  | nil => exact absurd rfl hne
  | cons c X' ih =>
    have hc : c ≠ '\n' := hnl c (List.mem_cons_self c X')
    cases X' with
    | nil =>
      show lazyCapture (c :: (adresseMarker ++ B)) = some [c]
      rw [lazyCapture, if_neg hc,
        if_pos ( List.isPrefixOf_iff_prefix.mpr (List.prefix_append adresseMarker B))]
    | cons d X'' =>
      have hnotpre : ¬ adresseMarker.isPrefixOf ((d :: X'') ++ (adresseMarker ++ B)) = true := by
        have := hmin 1 (by simp) (by simp)
        simpa using this
      have hrec : lazyCapture ((d :: X'') ++ (adresseMarker ++ B)) = some (d :: X'') := by
        apply ih (by simp)
        · intro x hx; exact hnl x (List.mem_cons_of_mem c hx)
        · intro i hi hpos
          have := hmin (i + 1) (by simpa using Nat.succ_lt_succ hi) (Nat.succ_pos i)
          simpa using this
      show lazyCapture (c :: ((d :: X'') ++ (adresseMarker ++ B))) = some (c :: d :: X'')
      rw [lazyCapture, if_neg hc, if_neg hnotpre, hrec]
      rfl

/-- Matching the full pattern right at a marker occurrence runs the lazy
group on the remainder. -/
theorem matchAt_marker (t : List Char) :
    matchAt (cprMarker ++ t) = lazyCapture t := by
  rw [matchAt, if_pos ( List.isPrefixOf_iff_prefix.mpr (List.prefix_append _ _)),
    List.drop_left]

/-- Soundness of the scan: a first capture decomposes the text as
`A ++ "CPR-nummer" ++ capture ++ "Adresse" ++ B` with a non-empty,
newline-free capture. -/
theorem findFirstCapture_sound (l cap : List Char)
    (h : findFirstCapture l = some cap) :
    ∃ A B, l = A ++ (cprMarker ++ (cap ++ (adresseMarker ++ B))) ∧
      cap ≠ [] ∧ ∀ c ∈ cap, c ≠ '\n' := by
  induction l generalizing cap with
  | nil => simp [findFirstCapture] at h
  | cons c rest ih =>
    rw [findFirstCapture] at h
    cases hm : matchAt (c :: rest) with
    | some cap' =>
      rw [hm] at h
      cases h
      rw [matchAt] at hm
      split at hm
      · rename_i hpre
        rcases List.isPrefixOf_iff_prefix.mp hpre with ⟨t, ht⟩
        have hdrop : (c :: rest).drop cprMarker.length = t := by
          rw [← ht, List.drop_left]
        rw [hdrop] at hm
        rcases lazyCapture_sound t cap hm with ⟨B, hB, hne, hfree⟩
        exact ⟨[], B, by rw [← ht, hB]; simp, hne, hfree⟩
      · exact absurd hm (by simp)
    | none =>
      rw [hm] at h
      rcases ih cap h with ⟨A, B, hB, hne, hfree⟩
      exact ⟨c :: A, B, by simp [hB], hne, hfree⟩

/-- The scan skips any leading segment at whose positions the left marker
does not match. -/
theorem findFirstCapture_skip (A rest : List Char)
    (hA : ∀ i, i < A.length → ¬ cprMarker.isPrefixOf (A.drop i ++ rest)) :
    findFirstCapture (A ++ rest) = findFirstCapture rest := by
  induction A with
  | nil => simp
  | cons c A' ih =>
    have h0 : ¬ cprMarker.isPrefixOf ((c :: A') ++ rest) = true := by
      have := hA 0 (by simp)
      simpa using this
    have hm : matchAt (c :: (A' ++ rest)) = none := by
      rw [matchAt, if_neg (by simpa using h0)]
    show findFirstCapture (c :: (A' ++ rest)) = findFirstCapture rest
    rw [findFirstCapture, hm]
    apply ih
    intro i hi
    have := hA (i + 1) (by simpa using Nat.succ_lt_succ hi)
    simpa using this

/-! ### Case analysis of `handle_email` -/

/-- Every run of `handle_email` has one of three shapes: the extraction
`IndexError` with no side effect at all; a failure caught by the `try`
block, whose trace is the queue-element creation, a prefix of the
side-effecting steps, and a final `FAILED` status update carrying the
exception message; or full success with the eight-event success trace. -/
theorem handle_email_cases (email : Email) (B : Backend) :
    (get_cpr_from_email email = none ∧
      handle_email email B = ([], .error .indexError)) ∨
    (∃ cpr msg pre, get_cpr_from_email email = some cpr ∧
      handle_email email B =
        (Event.createQueueElement QUEUE_NAME (queueRef email cpr)
            (B.newQueueId (queueRef email cpr)) ::
          (pre ++ [Event.setQueueElementStatus (B.newQueueId (queueRef email cpr))
            QueueStatus.failed (some msg)]),
         .error (.exception msg)) ∧
      pre.countP isCreateQueueElement = 0 ∧
      pre.countP isSetStatus = 0 ∧
      pre.countP isMoveEmail = 0 ∧
      pre.countP isGetCases = 0 ∧
      stepsOf pre <+: [StepKind.caseCreated, StepKind.documentUploaded,
        StepKind.documentAttached]) ∨
    (∃ cpr name doc_uuid, get_cpr_from_email email = some cpr ∧
      handle_email email B = (successTrace email B cpr name doc_uuid, .ok ())) := by
  cases hcpr : get_cpr_from_email email with
  | none =>
    refine Or.inl ⟨rfl, ?_⟩
    simp only [handle_email, hcpr]
  | some cpr =>
    cases hname : B.cprName cpr with
    | error msg =>
      refine Or.inr (Or.inl ⟨cpr, msg, [], rfl, ?_, rfl, rfl, rfl, rfl, List.nil_prefix⟩)
      simp only [handle_email, hcpr, create_case, hname, queueRef,
        List.cons_append, List.nil_append, List.append_nil]
    | ok name =>
      cases hadd : B.addCaseResult (builtCase cpr email.received_time name B) with
      | error msg =>
        refine Or.inr (Or.inl ⟨cpr, msg, [.getAddressByCpr cpr], rfl, ?_, rfl, rfl, rfl,
          rfl, List.nil_prefix⟩)
        simp only [handle_email, hcpr, create_case, hname, hadd, queueRef,
          List.cons_append, List.nil_append]
      | ok u =>
        cases u
        cases hmime : B.mimeResult email with
        | error msg =>
          refine Or.inr (Or.inl ⟨cpr, msg,
            [.getAddressByCpr cpr, .addCase (builtCase cpr email.received_time name B)],
            rfl, ?_, rfl, rfl, rfl, rfl,
            ⟨[StepKind.documentUploaded, StepKind.documentAttached], rfl⟩⟩)
          simp only [handle_email, hcpr, create_case, hname, hadd,
            attach_email_to_case, hmime, queueRef, List.cons_append, List.nil_append,
            List.append_nil]
        | ok mime =>
          cases hup : B.uploadResult mime "Email kvittering.eml" with
          | error msg =>
            refine Or.inr (Or.inl ⟨cpr, msg,
              [.getAddressByCpr cpr, .addCase (builtCase cpr email.received_time name B),
               .getEmailAsMime email],
              rfl, ?_, rfl, rfl, rfl, rfl,
              ⟨[StepKind.documentUploaded, StepKind.documentAttached], rfl⟩⟩)
            simp only [handle_email, hcpr, create_case, hname, hadd,
              attach_email_to_case, hmime, hup, queueRef, List.cons_append,
              List.nil_append, List.append_nil]
          | ok doc_uuid =>
            cases hatt : B.attachResult (builtCase cpr email.received_time name B).uuid
                (builtDocument doc_uuid email) with
            | error msg =>
              refine Or.inr (Or.inl ⟨cpr, msg,
                [.getAddressByCpr cpr, .addCase (builtCase cpr email.received_time name B),
                 .getEmailAsMime email, .uploadDocument "Email kvittering.eml"],
                rfl, ?_, rfl, rfl, rfl, rfl,
                ⟨[StepKind.documentAttached], rfl⟩⟩)
              simp only [handle_email, hcpr, create_case, hname, hadd,
                attach_email_to_case, hmime, hup, hatt, queueRef, List.cons_append,
                List.nil_append, List.append_nil]
            | ok u2 =>
              cases u2
              cases hmove : B.moveResult email JOURNALIZED_FOLDER with
              | error msg =>
                refine Or.inr (Or.inl ⟨cpr, msg,
                  [.getAddressByCpr cpr,
                   .addCase (builtCase cpr email.received_time name B),
                   .getEmailAsMime email, .uploadDocument "Email kvittering.eml",
                   .attachDocumentToCase (builtCase cpr email.received_time name B).uuid
                     (builtDocument doc_uuid email)],
                  rfl, ?_, rfl, rfl, rfl, rfl, ⟨[], rfl⟩⟩)
                simp only [handle_email, hcpr, create_case, hname, hadd,
                  attach_email_to_case, hmime, hup, hatt, hmove, queueRef,
                  List.cons_append, List.nil_append, List.append_nil]
              | ok u3 =>
                cases u3
                refine Or.inr (Or.inr ⟨cpr, name, doc_uuid, rfl, ?_⟩)
                simp only [handle_email, hcpr, create_case, hname, hadd,
                  attach_email_to_case, hmime, hup, hatt, hmove, successTrace, queueRef,
                  List.cons_append, List.nil_append, List.append_nil]

/-! ### Claim C4: email selection -/

/-- C4: for any list of emails the gateway returns, `get_emails` returns
exactly the sub-sequence of emails whose sender is `noreply@aarhus.dk` and
whose subject is `Erklæring - økonomisk fripladstilskud`, both compared
byte-exactly; every email failing either condition is excluded. -/
theorem C4_email_selection (mails : List Email) :
    List.Sublist (get_emails mails) mails ∧
    ∀ mail, mail ∈ get_emails mails ↔
      mail ∈ mails ∧ mail.sender = "noreply@aarhus.dk" ∧
        mail.subject = "Erklæring - økonomisk fripladstilskud" := by
  refine ⟨List.filter_sublist mails, fun mail => ?_⟩
  simp [get_emails, List.mem_filter, and_assoc]

/-! ### Claim C5: identifier extraction on a matching body -/

/-- If the lazy group matches right after the remainder of the text, the
scan that reaches the marker returns that capture. -/
theorem findFirstCapture_marker (t cap : List Char) (h : lazyCapture t = some cap) :
    findFirstCapture (cprMarker ++ t) = some cap := by
  have hm : matchAt (cprMarker ++ t) = some cap := by rw [matchAt_marker]; exact h
  cases he : cprMarker ++ t with
  | nil => exact absurd (List.append_eq_nil.mp he).1 (by decide)
  | cons c rest =>
    rw [he] at hm
    rw [findFirstCapture, hm]

/-- C5: on a body of the form `A ++ "CPR-nummer" ++ X ++ "Adresse" ++ B`,
where the designated occurrence is the first place the pattern matches
(no marker occurrence inside `A`, and `X` is the lazy capture: non-empty,
newline-free, with `"Adresse"` at no earlier stop), extraction returns
exactly `X` — no trimming, no transformation. -/
theorem C5_first_capture (email : Email) (A X B : List Char)
    (hbody : email.body.toList = A ++ (cprMarker ++ (X ++ (adresseMarker ++ B))))
    (hfirst : ∀ i, i < A.length →
      ¬ cprMarker.isPrefixOf (A.drop i ++ (cprMarker ++ (X ++ (adresseMarker ++ B)))))
    (hne : X ≠ []) (hnl : ∀ c ∈ X, c ≠ '\n')
    (hlazy : ∀ i, i < X.length → 0 < i →
      ¬ adresseMarker.isPrefixOf (X.drop i ++ (adresseMarker ++ B))) :
    get_cpr_from_email email = some (String.mk X) := by
  rw [get_cpr_from_email, hbody, findFirstCapture_skip _ _ hfirst,
    findFirstCapture_marker _ X (lazyCapture_complete X B hne hnl hlazy)]
  rfl

/-- Witness for C5 on a concrete receipt email. -/
theorem C5_witness : get_cpr_from_email sampleEmail = some "1234567890" :=
  C5_first_capture sampleEmail "Kære borger ".toList "1234567890".toList
    " Hovedgaden 1".toList (by decide) (by decide) (by decide) (by decide)
    (by decide)

/-! ### Claim C6: extraction failure when there is no match -/

/-- C6: if the body admits no decomposition on which the pattern could
match, extraction yields the `IndexError` (not a default value), and
`handle_email` raises it before performing any side effect. -/
theorem C6_no_match_raises (email : Email) (B : Backend)
    (h : ¬ hasCprMatch email.body.toList) :
    get_cpr_from_email email = none ∧
    handle_email email B = ([], .error .indexError) := by
  have hg : get_cpr_from_email email = none := by
    cases hf : findFirstCapture email.body.toList with
    | none => simp only [get_cpr_from_email, hf, Option.map_none']
    | some cap =>
      rcases findFirstCapture_sound _ cap hf with ⟨A, Bs, hB, hcne, hfree⟩
      exact absurd ⟨A, cap, Bs, hB, hcne, hfree⟩ h
  refine ⟨hg, ?_⟩
  simp only [handle_email, hg]

/-- Any text on which the pattern matches has at least 18 characters. -/
theorem hasCprMatch_length (l : List Char) (h : hasCprMatch l) :
    18 ≤ l.length := by
  rcases h with ⟨A, X, B, hB, hne, -⟩
  have hx : 0 < X.length := List.length_pos.mpr hne
  have h10 : cprMarker.length = 10 := rfl
  have h7 : adresseMarker.length = 7 := rfl
  rw [hB]
  simp only [List.length_append, h10, h7]
  omega

/-- Witness for C6 on a concrete marker-free email. -/
theorem C6_witness :
    get_cpr_from_email noMatchEmail = none ∧
    handle_email noMatchEmail trivialBackend = ([], .error .indexError) :=
  C6_no_match_raises noMatchEmail trivialBackend
    (fun hm => absurd (hasCprMatch_length _ hm) (by decide))

/-! ### Claim C10: the capture is never empty -/

/-- C10: extraction never returns the empty string — the pattern needs at
least one non-newline character between the markers.  In particular a body
where `CPR-nummer` is immediately followed by `Adresse`, or where the only
text between the markers spans a line break, yields the `IndexError`. -/
theorem C10_capture_nonempty :
    (∀ (email : Email) (s : String),
        get_cpr_from_email email = some s → 0 < s.length) ∧
    get_cpr_from_email ⟨"noreply@aarhus.dk",
      "Erklæring - økonomisk fripladstilskud", "2024-05-01T10:00:00",
      "Fra CPR-nummerAdresse"⟩ = none ∧
    get_cpr_from_email ⟨"noreply@aarhus.dk",
      "Erklæring - økonomisk fripladstilskud", "2024-05-01T10:00:00",
      "Fra CPR-nummer123456\n7890Adresse Hovedgaden"⟩ = none := by
  refine ⟨?_, by decide, by decide⟩
  intro email s h
  rcases Option.map_eq_some'.mp h with ⟨cap, hf, hs⟩
  rcases findFirstCapture_sound _ cap hf with ⟨-, -, -, hcne, -⟩
  have hlen : 0 < cap.length := List.length_pos.mpr hcne
  rw [← hs]
  exact hlen

/-- Witness for C10 at a concrete extraction. -/
theorem C10_witness : 0 < ("1234567890" : String).length :=
  C10_capture_nonempty.1 sampleEmail "1234567890" (by decide)

/-! ### Claim C1: effects of a successful run -/

/-- A count is zero when a stronger predicate already counts zero. -/
theorem countP_zero_of_imp {α : Type} (l : List α) (p q : α → Bool)
    (himp : ∀ e, p e = true → q e = true) (hq : l.countP q = 0) :
    l.countP p = 0 := by
  rw [List.countP_eq_zero] at hq ⊢
  intro a ha hpa
  exact hq a ha (himp a hpa)

/-- C1: a run of `handle_email` that completes without an exception
creates exactly one queue element and sets it (by id) to `DONE`, persists
exactly one case, uploads and attaches exactly one document — to that very
case — and moves the email exactly once. -/
theorem C1_success_effects (email : Email) (B : Backend) (tr : List Event)
    (h : handle_email email B = (tr, .ok ())) :
    tr.countP isCreateQueueElement = 1 ∧
    tr.countP isSetStatus = 1 ∧
    tr.countP isSetDone = 1 ∧
    tr.countP isAddCase = 1 ∧
    tr.countP isUploadDocument = 1 ∧
    tr.countP isAttachDocument = 1 ∧
    tr.countP isMoveEmail = 1 ∧
    Event.moveEmail email JOURNALIZED_FOLDER ∈ tr ∧
    (∃ reference elemId,
      Event.createQueueElement QUEUE_NAME reference elemId ∈ tr ∧
      Event.setQueueElementStatus elemId QueueStatus.done none ∈ tr) ∧
    ∃ c d, Event.addCase c ∈ tr ∧ Event.attachDocumentToCase c.uuid d ∈ tr := by
  rcases handle_email_cases email B with ⟨-, he⟩ | ⟨cpr, msg, pre, -, he, -⟩ |
    ⟨cpr, name, du, -, he⟩
  · rw [h] at he; simp at he
  · rw [h] at he; simp at he
  · rw [h] at he
    injection he with h1 h2
    subst h1
    refine ⟨?_, ?_, ?_, ?_, ?_, ?_, ?_, ?_,
      ⟨queueRef email cpr, B.newQueueId (queueRef email cpr), ?_, ?_⟩,
      ⟨builtCase cpr email.received_time name B, builtDocument du email, ?_, ?_⟩⟩ <;>
      simp [successTrace, List.countP_cons, isCreateQueueElement, isSetStatus,
        isSetDone, isAddCase, isUploadDocument, isAttachDocument, isMoveEmail]

/-- Witness for C1 on a concrete all-succeeding run. -/
theorem C1_witness :
    (handle_email sampleEmail trivialBackend).1.countP isCreateQueueElement = 1 :=
  (C1_success_effects sampleEmail trivialBackend
    (handle_email sampleEmail trivialBackend).1 rfl).1

/-! ### Claim C2: effects of a failing run -/

/-- C2 (amended): if `handle_email` raises out of its `try` block, the
queue element is set to `FAILED` exactly once, carrying exactly the
exception's message (so non-empty exactly when that message is), no `DONE`
status is recorded, and the email is not moved. -/
theorem C2_failure_recorded (email : Email) (B : Backend) (tr : List Event)
    (msg : String)
    (h : handle_email email B = (tr, .error (.exception msg))) :
    ∃ cpr, get_cpr_from_email email = some cpr ∧
      Event.setQueueElementStatus (B.newQueueId (queueRef email cpr))
        QueueStatus.failed (some msg) ∈ tr ∧
      tr.countP isSetFailed = 1 ∧
      tr.countP isSetDone = 0 ∧
      tr.countP isMoveEmail = 0 := by
  rcases handle_email_cases email B with ⟨-, he⟩ |
    ⟨cpr, msg', pre, hcpr, he, hc1, hc2, hc3, -, -⟩ | ⟨cpr, name, du, -, he⟩
  · rw [h] at he; simp at he
  · rw [h] at he
    injection he with h1 h2
    injection h2 with h3
    injection h3 with h4
    subst h4
    subst h1
    have hfail0 : pre.countP isSetFailed = 0 :=
      countP_zero_of_imp pre isSetFailed isSetStatus
        (by intro e h; cases e <;> simp_all [isSetFailed, isSetStatus]) hc2
    have hdone0 : pre.countP isSetDone = 0 :=
      countP_zero_of_imp pre isSetDone isSetStatus
        (by intro e h; cases e <;> simp_all [isSetDone, isSetStatus]) hc2
    refine ⟨cpr, hcpr, by simp, ?_, ?_, ?_⟩
    · simp [List.countP_cons, List.countP_append, hfail0, isSetFailed,
        isCreateQueueElement]
    · simp [List.countP_cons, List.countP_append, hdone0, isSetDone]
    · simp [List.countP_cons, List.countP_append, hc3, isMoveEmail]
  · rw [h] at he; simp at he

/-- Counterexample to C2 as stated: on a backend whose case persisting
raises an exception with empty `str(exc)` — as a bare `raise Exception()`
does — the only `FAILED` status update carries the empty message. -/
theorem C2_counterexample :
    handle_email sampleEmail emptyMsgBackend =
      ([Event.createQueueElement QUEUE_NAME "1234567890 - 2024-05-01T10:00:00" 1,
        Event.getAddressByCpr "1234567890",
        Event.setQueueElementStatus 1 QueueStatus.failed (some "")],
       .error (.exception "")) := rfl

/-- Witness for C2 (amended) on a concrete run failing at document
attachment. -/
theorem C2_witness :
    ∃ cpr, get_cpr_from_email batchEmail2 = some cpr ∧
      Event.setQueueElementStatus (batchBackend.newQueueId (queueRef batchEmail2 cpr))
        QueueStatus.failed (some "Attach fejl") ∈
        (handle_email batchEmail2 batchBackend).1 ∧
      (handle_email batchEmail2 batchBackend).1.countP isSetFailed = 1 ∧
      (handle_email batchEmail2 batchBackend).1.countP isSetDone = 0 ∧
      (handle_email batchEmail2 batchBackend).1.countP isMoveEmail = 0 :=
  C2_failure_recorded batchEmail2 batchBackend
    (handle_email batchEmail2 batchBackend).1 "Attach fejl" rfl

/-! ### Claim C7: unconditional case creation -/

/-- C7: given a cpr and a case date, when the person lookup and the
persisting call succeed, `create_case` performs no lookup for an existing
case, persists exactly one new case — with the generated uuid, the
year-templated title, progress state `Afsluttet`, the single `Primær`
party, the fixed KLE number, sensitivity, department and caseworker — and
returns that case. -/
theorem C7_create_case_unconditional (cpr case_date : String) (B : Backend)
    (name : String) (hname : B.cprName cpr = .ok name)
    (hadd : B.addCaseResult (builtCase cpr case_date name B) = .ok ()) :
    create_case cpr case_date B =
      ([.getAddressByCpr cpr, .addCase (builtCase cpr case_date name B)],
       .ok (builtCase cpr case_date name B)) ∧
    (create_case cpr case_date B).1.countP isGetCases = 0 ∧
    (create_case cpr case_date B).1.countP isAddCase = 1 ∧
    (builtCase cpr case_date name B).uuid = B.genUuid ∧
    (builtCase cpr case_date name B).title =
      "Projekt enlig forsørger " ++ toString B.nowYear ∧
    (builtCase cpr case_date name B).case_date = case_date ∧
    (builtCase cpr case_date name B).progress_state = "Afsluttet" ∧
    (builtCase cpr case_date name B).case_parties =
      [⟨"Primær", "CprNummer", cpr, name, none⟩] ∧
    (builtCase cpr case_date name B).kle_number = "32.45.04" ∧
    (builtCase cpr case_date name B).sensitivity = "Fortrolige" ∧
    (builtCase cpr case_date name B).responsible_department = kontrolteamet ∧
    (builtCase cpr case_date name B).security_unit = kontrolteamet ∧
    (builtCase cpr case_date name B).caseworker = rpaCaseworker := by
  have hcc : create_case cpr case_date B =
      ([.getAddressByCpr cpr, .addCase (builtCase cpr case_date name B)],
       .ok (builtCase cpr case_date name B)) := by
    simp only [create_case, hname, hadd]
  refine ⟨hcc, ?_, ?_, rfl, rfl, rfl, rfl, rfl, rfl, rfl, rfl, rfl, rfl⟩
  · rw [hcc]
    rfl
  · rw [hcc]
    rfl

/-- Witness for C7 on a concrete backend. -/
theorem C7_witness :
    create_case "0101011234" "2024-05-01T10:00:00" trivialBackend =
      ([.getAddressByCpr "0101011234",
        .addCase (builtCase "0101011234" "2024-05-01T10:00:00" "Navn Navnesen"
          trivialBackend)],
       .ok (builtCase "0101011234" "2024-05-01T10:00:00" "Navn Navnesen"
         trivialBackend)) :=
  (C7_create_case_unconditional "0101011234" "2024-05-01T10:00:00" trivialBackend
    "Navn Navnesen" rfl rfl).1

/-! ### Claim C8: queue-element lifecycle -/

/-- C8: when extraction succeeds, the very first effect of `handle_email`
is the creation of the queue element with reference
`cpr ++ " - " ++ received_time`; exactly one queue element is created,
its status is set exactly once, and that final effect sets it (by id) to
either `DONE` or `FAILED`. -/
theorem C8_queue_element_lifecycle (email : Email) (B : Backend) (cpr : String)
    (hcpr : get_cpr_from_email email = some cpr) :
    ((handle_email email B).1).head? =
      some (Event.createQueueElement QUEUE_NAME
        (cpr ++ " - " ++ email.received_time)
        (B.newQueueId (cpr ++ " - " ++ email.received_time))) ∧
    ((handle_email email B).1).countP isCreateQueueElement = 1 ∧
    ((handle_email email B).1).countP isSetStatus = 1 ∧
    ∃ st msg, ((handle_email email B).1).getLast? =
        some (Event.setQueueElementStatus
          (B.newQueueId (cpr ++ " - " ++ email.received_time)) st msg) ∧
      (st = QueueStatus.done ∨ st = QueueStatus.failed) := by
  rcases handle_email_cases email B with ⟨hnone, -⟩ |
    ⟨cpr', msg, pre, hcpr', he, hc1, hc2, -, -, -⟩ | ⟨cpr', name, du, hcpr', he⟩
  · rw [hcpr] at hnone; exact absurd hnone (by simp)
  · rw [hcpr] at hcpr'
    injection hcpr' with hceq
    subst hceq
    have h1 : (handle_email email B).1 =
        Event.createQueueElement QUEUE_NAME (queueRef email cpr)
            (B.newQueueId (queueRef email cpr)) ::
          (pre ++ [Event.setQueueElementStatus (B.newQueueId (queueRef email cpr))
            QueueStatus.failed (some msg)]) := by
      rw [he]
    rw [h1]
    refine ⟨by simp [queueRef], ?_, ?_,
      QueueStatus.failed, some msg, ?_, Or.inr rfl⟩
    · simp [List.countP_cons, List.countP_append, hc1, isCreateQueueElement]
    · simp [List.countP_cons, List.countP_append, hc2, isSetStatus]
    · rw [← List.cons_append, List.getLast?_concat, queueRef]
  · rw [hcpr] at hcpr'
    injection hcpr' with hceq
    subst hceq
    have h1 : (handle_email email B).1 = successTrace email B cpr name du := by
      rw [he]
    rw [h1]
    refine ⟨by simp [successTrace, queueRef], ?_, ?_,
      QueueStatus.done, none, ?_, Or.inl rfl⟩
    · simp [successTrace, List.countP_cons, isCreateQueueElement]
    · simp [successTrace, List.countP_cons, isSetStatus]
    · simp [successTrace, queueRef]

/-- Witness for C8 on a concrete run. -/
theorem C8_witness :
    (handle_email sampleEmail trivialBackend).1.head? =
      some (Event.createQueueElement QUEUE_NAME "1234567890 - 2024-05-01T10:00:00" 1) :=
  (C8_queue_element_lifecycle sampleEmail trivialBackend "1234567890" (by decide)).1

/-! ### Claim C9: strict step order -/

/-- C9: in every run of `handle_email`, the realised side-effecting steps
form a prefix of the chain case creation → document upload → document
attachment → email move; in particular the move never happens before the
document is attached, and each step happens only if all earlier ones
did. -/
theorem C9_step_order (email : Email) (B : Backend) :
    stepsOf ((handle_email email B).1) <+:
      [StepKind.caseCreated, StepKind.documentUploaded, StepKind.documentAttached,
       StepKind.emailMoved] := by
  rcases handle_email_cases email B with ⟨-, he⟩ |
    ⟨cpr, msg, pre, -, he, -, -, -, -, hpre⟩ | ⟨cpr, name, du, -, he⟩
  · rw [he]
    exact List.nil_prefix
  · have h1 : (handle_email email B).1 =
        Event.createQueueElement QUEUE_NAME (queueRef email cpr)
            (B.newQueueId (queueRef email cpr)) ::
          (pre ++ [Event.setQueueElementStatus (B.newQueueId (queueRef email cpr))
            QueueStatus.failed (some msg)]) := by
      rw [he]
    rw [h1]
    have h2 : stepsOf (Event.createQueueElement QUEUE_NAME (queueRef email cpr)
            (B.newQueueId (queueRef email cpr)) ::
          (pre ++ [Event.setQueueElementStatus (B.newQueueId (queueRef email cpr))
            QueueStatus.failed (some msg)])) = stepsOf pre := by
      simp [stepsOf, List.filterMap_cons, List.filterMap_append, stepOf]
    rw [h2]
    exact hpre.trans ⟨[StepKind.emailMoved], rfl⟩
  · have h1 : (handle_email email B).1 = successTrace email B cpr name du := by
      rw [he]
    rw [h1]
    have h2 : stepsOf (successTrace email B cpr name du) =
        [StepKind.caseCreated, StepKind.documentUploaded, StepKind.documentAttached,
         StepKind.emailMoved] := rfl
    rw [h2]

/-! ### Claim C3: a failing email aborts the batch -/

/-- Unfolding of the batch loop when the head email fails: the exception
is re-raised and nothing further runs. -/
theorem process_emails_cons_err (e : Email) (rest : List Email) (B : Backend)
    (tr : List Event) (err : PyError) (h : handle_email e B = (tr, .error err)) :
    process_emails (e :: rest) B = (tr, .error err) := by
  simp only [process_emails, h]

/-- Unfolding of the batch loop when the head email succeeds. -/
theorem process_emails_cons_ok (e : Email) (rest : List Email) (B : Backend)
    (tre : List Event) (h : handle_email e B = (tre, .ok ())) :
    process_emails (e :: rest) B =
      (tre ++ (process_emails rest B).1, (process_emails rest B).2) := by
  rcases hp : process_emails rest B with ⟨tr2, r2⟩
  simp only [process_emails, h, hp]

/-- C3: if every email before `email` succeeds and `email` itself raises,
the batch result is the same whatever follows `email` — the exception is
re-raised out of the loop, no later email is handled — and the overall
trace is the successful prefix followed by the failing email's trace
(which by C2 records the failure on that email's queue element). -/
theorem C3_batch_aborts (es1 : List Email) (email : Email) (es2 : List Email)
    (B : Backend) (tr : List Event) (err : PyError)
    (hok : ∀ e ∈ es1, (handle_email e B).2 = .ok ())
    (herr : handle_email email B = (tr, .error err)) :
    process_emails (es1 ++ email :: es2) B = process_emails (es1 ++ [email]) B ∧
    ∃ trPre, process_emails (es1 ++ email :: es2) B = (trPre ++ tr, .error err) := by
  induction es1 with
  | nil =>
    have h1 : process_emails (email :: es2) B = (tr, .error err) :=
      process_emails_cons_err email es2 B tr err herr
    have h2 : process_emails [email] B = (tr, .error err) :=
      process_emails_cons_err email [] B tr err herr
    exact ⟨h1.trans h2.symm, [], by simpa using h1⟩
  | cons e es1' ih =>
    have he2 := hok e (List.mem_cons_self e es1')
    have he : handle_email e B = ((handle_email e B).1, .ok ()) := by
      rw [← he2]
    obtain ⟨ih1, trPre, ih2⟩ := ih (fun x hx => hok x (List.mem_cons_of_mem e hx))
    have hA := process_emails_cons_ok e (es1' ++ email :: es2) B
      (handle_email e B).1 he
    have hB := process_emails_cons_ok e (es1' ++ [email]) B
      (handle_email e B).1 he
    constructor
    · show process_emails (e :: (es1' ++ email :: es2)) B =
        process_emails (e :: (es1' ++ [email])) B
      rw [hA, hB, ih1]
    · refine ⟨(handle_email e B).1 ++ trPre, ?_⟩
      show process_emails (e :: (es1' ++ email :: es2)) B = _
      rw [hA, ih2]
      simp [List.append_assoc]

/-- Witness for C3: the three-email batch where the second email fails at
document attachment; the third is never processed. -/
theorem C3_witness :
    process_emails [batchEmail1, batchEmail2, batchEmail3] batchBackend =
      process_emails [batchEmail1, batchEmail2] batchBackend ∧
    ∃ trPre, process_emails [batchEmail1, batchEmail2, batchEmail3] batchBackend =
      (trPre ++ (handle_email batchEmail2 batchBackend).1,
       .error (.exception "Attach fejl")) :=
  C3_batch_aborts [batchEmail1] batchEmail2 [batchEmail3] batchBackend
    (handle_email batchEmail2 batchBackend).1 (.exception "Attach fejl")
    (by intro e he; rw [List.mem_singleton] at he; subst he; rfl) rfl
